import Mathlib

/-!
Shallow embedding of the TrailSync offline-first synchronization engine.

Sources embedded here:
- frontend IndexedDB layer (ActivityDB / SyncQueueDB / SettingsDB, file
  src/unnamed/part_002, a Dexie database): local activity records, the
  mutation queue and the lastSync setting;
- frontend SyncService (src/frontend/src/App.jsx, second document):
  sync, processSyncQueue, syncCreate, syncUpdate, syncDelete,
  pullFromServer, forceSync;
- frontend APIService (src/frontend/src/services/api.js) and the backend
  activity controller (src/unnamed/part_004) for the remote endpoints
  getActivities, createActivity, updateActivity, deleteActivity.

Timestamps are modelled as natural numbers; every JS new Date() call is
an explicit clock value threaded through the state. Activity payload
fields that the sync engine never inspects (type, distance, route, notes,
and so on) are collapsed into one opaque content field; startTime is kept
separately because the backend getActivities endpoint filters on it.
Remote Mongo identifiers are modelled as Nat; a present serverId models a
non-empty identifier string (Mongo object ids are never empty).
-/

namespace TrailSync

/-- Local activity record as stored in the Dexie activities table:
auto-increment id, optional server-assigned identifier, sync status
string (pending / synced / conflict), lastModified stamp, the opaque
payload content and the startTime field used by index ordering. The
mongoId field models the _id key that rides along the object spreads: a
record imported from the server keeps the server _id in its Dexie copy
(pullFromServer and forceSync spread the server activity), and the whole
record — _id included — is what syncCreate later posts to the create
endpoint. -/
structure LocalActivity where
  id : Nat
  serverId : Option Nat
  mongoId : Option Nat
  syncStatus : String
  lastModified : Nat
  content : Nat
  startTime : Nat
deriving Repr, DecidableEq

/-- Remote activity document of the backend Activity model: Mongo _id,
opaque content, startTime and the lastModified stamp maintained by the
pre-save hook. -/
structure RemoteActivity where
  rid : Nat
  content : Nat
  startTime : Nat
  lastModified : Nat
deriving Repr, DecidableEq

/-- Partial record object (a JS patch) as passed to ActivityDB.update
and to the Dexie table update: a field that is some v overwrites the
stored field, none leaves it unchanged. A present serverId patch always
sets the stored serverId to that identifier (no call site ever clears
it). -/
structure Patch where
  serverId : Option Nat := none
  mongoId : Option Nat := none
  syncStatus : Option String := none
  lastModified : Option Nat := none
  content : Option Nat := none
  startTime : Option Nat := none
deriving Repr, DecidableEq

/-- Application of a JS patch object to a stored record, field by field
(Dexie Table.update merge semantics). -/
def applyPatch (a : LocalActivity) (p : Patch) : LocalActivity :=
  { a with
    serverId := match p.serverId with
      | some v => some v
      | none => a.serverId
    mongoId := match p.mongoId with
      | some v => some v
      | none => a.mongoId
    syncStatus := p.syncStatus.getD a.syncStatus
    lastModified := p.lastModified.getD a.lastModified
    content := p.content.getD a.content
    startTime := p.startTime.getD a.startTime }

/-- Record object handed to ActivityDB.add. The caller may supply any
syncStatus, lastModified and serverId (pullFromServer and forceSync pass
syncStatus synced and a serverId); ActivityDB.add overrides the first
two. -/
structure ActivityInput where
  serverId : Option Nat
  mongoId : Option Nat
  syncStatus : String
  lastModified : Nat
  content : Nat
  startTime : Nat
deriving Repr, DecidableEq

/-- Spread of an ActivityInput into a patch (used for the data snapshot
stored in a create queue entry). -/
def ActivityInput.toPatch (a : ActivityInput) : Patch :=
  { serverId := a.serverId, mongoId := a.mongoId,
    syncStatus := some a.syncStatus,
    lastModified := some a.lastModified, content := some a.content,
    startTime := some a.startTime }

/-- Mutation queue entry of the Dexie syncQueue table: auto-increment
id, operation string (create / update / delete), the referenced local
activity id, the data snapshot (the original input or patch; absent for
delete entries), enqueue timestamp, retry counter and last attempt
stamp. -/
structure QueueEntry where
  id : Nat
  operation : String
  activityId : Nat
  data : Option Patch
  timestamp : Nat
  retryCount : Nat
  lastAttempt : Option Nat
deriving Repr, DecidableEq

/-- State of the Dexie TrailSyncDB database: the activities table with
its auto-increment counter, the syncQueue table with its counter, and
the lastSync key of the settings table (the only setting the sync engine
reads or writes; the other settings keys are irrelevant here). -/
structure DBState where
  activities : List LocalActivity
  nextActivityId : Nat
  syncQueue : List QueueEntry
  nextQueueId : Nat
  lastSync : Option Nat
deriving Repr, DecidableEq

/-- Index order used by ActivityDB.getAll: the Dexie startTime index is
ascending by (startTime, primary key). -/
def activityKeyLe (a b : LocalActivity) : Prop :=
  a.startTime < b.startTime ∨ (a.startTime = b.startTime ∧ a.id ≤ b.id)

instance : DecidableRel activityKeyLe := fun a b => by
  unfold activityKeyLe; infer_instance

/-- Index order used by SyncQueueDB.getAll: the Dexie timestamp index is
ascending by (timestamp, primary key), so FIFO by enqueue time. -/
def entryKeyLe (a b : QueueEntry) : Prop :=
  a.timestamp < b.timestamp ∨ (a.timestamp = b.timestamp ∧ a.id ≤ b.id)

instance : DecidableRel entryKeyLe := fun a b => by
  unfold entryKeyLe; infer_instance

namespace ActivityDB

/-- Model of ActivityDB.add: stores the spread of the input with
syncStatus forced to pending and lastModified forced to the current
time, then enqueues a create entry carrying the original input as data
snapshot; returns the new auto-increment id. -/
def add (st : DBState) (activity : ActivityInput) (now : Nat) :
    DBState × Nat :=
  let newId := st.nextActivityId
  let stored : LocalActivity :=
    { id := newId, serverId := activity.serverId,
      mongoId := activity.mongoId, syncStatus := "pending",
      lastModified := now, content := activity.content,
      startTime := activity.startTime }
  let entry : QueueEntry :=
    { id := st.nextQueueId, operation := "create", activityId := newId,
      data := some activity.toPatch, timestamp := now, retryCount := 0,
      lastAttempt := none }
  ({ st with activities := st.activities ++ [stored],
             nextActivityId := newId + 1,
             syncQueue := st.syncQueue ++ [entry],
             nextQueueId := st.nextQueueId + 1 }, newId)

/-- Model of ActivityDB.getAll with no filters (the only form the sync
engine calls): the activities table ordered by startTime descending
(Dexie orderBy startTime then reverse). The optional type and date
filters of the JS function are not used by the sync engine and are
omitted. -/
def getAll (st : DBState) : List LocalActivity :=
  (List.insertionSort activityKeyLe st.activities).reverse

/-- Model of ActivityDB.getById: Dexie Table.get on the primary key. -/
def getById (st : DBState) (id : Nat) : Option LocalActivity :=
  st.activities.find? (fun a => a.id = id)

/-- Model of ActivityDB.update: applies the spread of the patch with
syncStatus forced to pending and lastModified forced to the current time
(a missing id makes the table update a no-op), then enqueues an update
entry carrying the original patch as data snapshot. -/
def update (st : DBState) (id : Nat) (updates : Patch) (now : Nat) :
    DBState :=
  { st with
    activities := st.activities.map (fun a =>
      if a.id = id then
        applyPatch a { updates with syncStatus := some "pending",
                                    lastModified := some now }
      else a),
    syncQueue := st.syncQueue ++
      [{ id := st.nextQueueId, operation := "update", activityId := id,
         data := some updates, timestamp := now, retryCount := 0,
         lastAttempt := none }],
    nextQueueId := st.nextQueueId + 1 }

/-- Model of ActivityDB.delete: removes the record from the activities
table and enqueues a delete entry (which carries no data snapshot). -/
def delete (st : DBState) (id : Nat) (now : Nat) : DBState :=
  { st with
    activities := st.activities.filter (fun a => a.id ≠ id),
    syncQueue := st.syncQueue ++
      [{ id := st.nextQueueId, operation := "delete", activityId := id,
         data := none, timestamp := now, retryCount := 0,
         lastAttempt := none }],
    nextQueueId := st.nextQueueId + 1 }

/-- Model of ActivityDB.markSynced: sets syncStatus to synced and stores
the server identifier on the record (no-op when the id is absent). -/
def markSynced (st : DBState) (id : Nat) (serverId : Nat) : DBState :=
  { st with activities := st.activities.map (fun a =>
      if a.id = id then
        { a with syncStatus := "synced", serverId := some serverId }
      else a) }

end ActivityDB

namespace SyncQueueDB

/-- Model of SyncQueueDB.getAll: the queue ordered by the timestamp
index (enqueue order; ties resolved by primary key as in IndexedDB). -/
def getAll (st : DBState) : List QueueEntry :=
  List.insertionSort entryKeyLe st.syncQueue

/-- Model of SyncQueueDB.remove: deletes the entry by primary key. -/
def remove (st : DBState) (id : Nat) : DBState :=
  { st with syncQueue := st.syncQueue.filter (fun e => e.id ≠ id) }

/-- Model of SyncQueueDB.incrementRetry: when the entry exists, bumps
its stored retryCount and stamps lastAttempt with the current time. -/
def incrementRetry (st : DBState) (id : Nat) (now : Nat) : DBState :=
  { st with syncQueue := st.syncQueue.map (fun e =>
      if e.id = id then
        { e with retryCount := e.retryCount + 1, lastAttempt := some now }
      else e) }

/-- Model of SyncQueueDB.clear: empties the syncQueue table (the Dexie
auto-increment counter is not reset by clear). -/
def clear (st : DBState) : DBState :=
  { st with syncQueue := [] }

end SyncQueueDB

/-- State of the authoritative store: the Activity collection and the
counter from which fresh Mongo identifiers are drawn. -/
structure RemoteStore where
  records : List RemoteActivity
  nextRemoteId : Nat
deriving Repr, DecidableEq

namespace Backend

/-- Ascending (startTime, _id) order used to model the Mongo sort on
startTime (ties, unspecified by Mongo, are modelled by _id). -/
def remoteKeyLe (a b : RemoteActivity) : Prop :=
  a.startTime < b.startTime ∨ (a.startTime = b.startTime ∧ a.rid ≤ b.rid)

instance : DecidableRel remoteKeyLe := fun a b => by
  unfold remoteKeyLe; infer_instance

/-- Model of the backend getActivities controller: an optional startDate
query parameter filters by startTime greater or equal (Mongo gte on
startTime, not on lastModified), the result is sorted by startTime
descending (the default -startTime sort) and truncated to the limit
query parameter. -/
def getActivities (rs : RemoteStore) (startDate : Option Nat)
    (limit : Nat) : List RemoteActivity :=
  let filtered := match startDate with
    | some d => rs.records.filter (fun r => d ≤ r.startTime)
    | none => rs.records
  ((List.insertionSort remoteKeyLe filtered).reverse).take limit

/-- Model of the backend createActivity controller plus the Activity
pre-save hook: Activity.create inserts the spread of the posted body, so
a posted _id is used as the document identifier — and when a document
with that _id already exists the insert fails with a duplicate-key
error, which the controller returns as a 500 and the axios client
raises (the error branch here). Without a posted _id a fresh identifier
is minted. The pre-save hook stamps lastModified with the server time;
content and startTime come from the body; the required fields are
present on every record the sync service posts. -/
def createActivity (rs : RemoteStore) (mongoId : Option Nat)
    (content startTime : Nat) (snow : Nat) :
    Except String (RemoteStore × Nat) :=
  match mongoId with
  | some rid =>
    if rs.records.any (fun r => r.rid = rid) then
      .error "Request failed with status code 500"
    else
      let doc : RemoteActivity :=
        { rid := rid, content := content, startTime := startTime,
          lastModified := snow }
      .ok ({ rs with records := rs.records ++ [doc] }, rid)
  | none =>
    let rid := rs.nextRemoteId
    let doc : RemoteActivity :=
      { rid := rid, content := content, startTime := startTime,
        lastModified := snow }
    .ok ({ records := rs.records ++ [doc],
           nextRemoteId := rid + 1 }, rid)

/-- Model of the backend updateActivity controller: none models the 404
response (which the axios client raises as an error); otherwise the body
is assigned onto the document and the pre-save hook stamps lastModified
with the server time. -/
def updateActivity (rs : RemoteStore) (rid : Nat) (body : Patch)
    (snow : Nat) : Option RemoteStore :=
  if rs.records.any (fun r => r.rid = rid) then
    some { rs with records := rs.records.map (fun r =>
      if r.rid = rid then
        { r with content := body.content.getD r.content,
                 startTime := body.startTime.getD r.startTime,
                 lastModified := snow }
      else r) }
  else none

/-- Model of the backend deleteActivity controller: none models the 404
response; otherwise the document is removed. -/
def deleteActivity (rs : RemoteStore) (rid : Nat) : Option RemoteStore :=
  if rs.records.any (fun r => r.rid = rid) then
    some { rs with records := rs.records.filter (fun r => r.rid ≠ rid) }
  else none

end Backend

namespace APIService

/-- Model of apiService.getActivities: forwards startDate and limit to
the backend; when the caller passes no limit the backend default of 50
applies (pullFromServer passes none, forceSync passes 1000). -/
def getActivities (rs : RemoteStore) (startDate : Option Nat)
    (limit : Option Nat) : List RemoteActivity :=
  Backend.getActivities rs startDate (limit.getD 50)

end APIService

/-- Whole-system state threaded through the sync service: the local
database, the remote store, the isSyncing re-entrancy flag of the
SyncService instance and a clock supplying the value of each JS
new Date() call (bumped after every use, since real time is
monotone). -/
structure World where
  db : DBState
  remote : RemoteStore
  isSyncing : Bool
  clock : Nat
deriving Repr, DecidableEq

/-- Push-phase counters of the sync result (the errors array keeps the
entry id and message of each failure). -/
structure PushResults where
  success : Nat
  failed : Nat
  errors : List (Nat × String)
deriving Repr, DecidableEq

/-- Pull-phase counters of the sync result. -/
structure PullResults where
  added : Nat
  updated : Nat
  conflicts : Nat
deriving Repr, DecidableEq

/-- Structured result object resolved by every sync call. -/
structure SyncResult where
  success : Bool
  message : String
  push : Option PushResults
  pull : Option PullResults
deriving Repr, DecidableEq

namespace SyncService

/-- Model of SyncService.syncCreate: looks the activity up locally
(failure when absent), posts the whole record — including any _id the
record carries from an earlier pull — to the create endpoint (a
duplicate-key 500 surfaces as an error) and stores the returned server
identifier via markSynced. -/
def syncCreate (w : World) (item : QueueEntry) : Except String World :=
  match ActivityDB.getById w.db item.activityId with
  | none => .error "Activity not found locally"
  | some activity =>
    match Backend.createActivity w.remote activity.mongoId
        activity.content activity.startTime w.clock with
    | .error msg => .error msg
    | .ok created =>
      .ok { w with remote := created.1,
                   db := ActivityDB.markSynced w.db item.activityId created.2,
                   clock := w.clock + 1 }

/-- Model of SyncService.syncUpdate: fails when the activity is missing
locally or carries no server identifier; otherwise sends the stored data
snapshot to the update endpoint (a 404 surfaces as an error) and marks
the record synced again with its existing server identifier. -/
def syncUpdate (w : World) (item : QueueEntry) : Except String World :=
  match ActivityDB.getById w.db item.activityId with
  | none => .error "Activity not found locally"
  | some activity =>
    match activity.serverId with
    | none => .error "Cannot update activity without server ID"
    | some sid =>
      match Backend.updateActivity w.remote sid (item.data.getD {}) w.clock with
      | none => .error "Request failed with status code 404"
      | some remote1 =>
        .ok { w with remote := remote1,
                     db := ActivityDB.markSynced w.db item.activityId sid,
                     clock := w.clock + 1 }

/-- Model of SyncService.syncDelete: calls the delete endpoint only when
the local record still exists and carries a server identifier (a 404
surfaces as an error); with no local record or no server identifier the
call is skipped and the operation counts as a success. -/
def syncDelete (w : World) (item : QueueEntry) : Except String World :=
  match ActivityDB.getById w.db item.activityId with
  | some activity =>
    match activity.serverId with
    | some sid =>
      match Backend.deleteActivity w.remote sid with
      | none => .error "Request failed with status code 404"
      | some remote1 => .ok { w with remote := remote1 }
    | none => .ok w
  | none => .ok w

/-- Dispatch on the operation string of a queue entry (the switch inside
the processSyncQueue loop; an unknown operation falls through the switch
and counts as a success). -/
def runOperation (w : World) (item : QueueEntry) : Except String World :=
  match item.operation with
  | "create" => syncCreate w item
  | "update" => syncUpdate w item
  | "delete" => syncDelete w item
  | _ => .ok w

/-- One iteration of the processSyncQueue loop: on success the entry is
removed and the success counter bumped; on failure the stored retry
counter is incremented, the failure recorded, and the entry is removed
when the stale retryCount read at queue load time has already reached
5. -/
def processItem (acc : World × PushResults) (item : QueueEntry) :
    World × PushResults :=
  let w := acc.1
  let results := acc.2
  match runOperation w item with
  | .ok w1 =>
    ({ w1 with db := SyncQueueDB.remove w1.db item.id },
     { results with success := results.success + 1 })
  | .error msg =>
    let db1 := SyncQueueDB.incrementRetry w.db item.id w.clock
    let db2 := if item.retryCount ≥ 5 then SyncQueueDB.remove db1 item.id
               else db1
    ({ w with db := db2, clock := w.clock + 1 },
     { results with failed := results.failed + 1,
                    errors := results.errors ++ [(item.id, msg)] })

/-- Model of SyncService.processSyncQueue: loads the queue once in FIFO
order and processes every entry, isolating per-entry failures. -/
def processSyncQueue (w : World) : World × PushResults :=
  let queue := SyncQueueDB.getAll w.db
  queue.foldl processItem (w, { success := 0, failed := 0, errors := [] })

/-- Patch built by pullFromServer for an existing local record: the
spread of the server activity with serverId set to the server _id and
syncStatus set to synced. -/
def serverPatch (sa : RemoteActivity) : Patch :=
  { serverId := some sa.rid, mongoId := some sa.rid,
    syncStatus := some "synced",
    lastModified := some sa.lastModified, content := some sa.content,
    startTime := some sa.startTime }

/-- Input built by pullFromServer and forceSync for a new local record:
the spread of the server activity with serverId set to the server _id
and syncStatus set to synced. -/
def serverInput (sa : RemoteActivity) : ActivityInput :=
  { serverId := some sa.rid, mongoId := some sa.rid,
    syncStatus := "synced",
    lastModified := sa.lastModified, content := sa.content,
    startTime := sa.startTime }

/-- One iteration of the pullFromServer loop: finds the local record
referencing the server _id; when present and the server copy is strictly
newer, counts a conflict if the local record is pending and overwrites
it through ActivityDB.update; when absent, inserts it through
ActivityDB.add. -/
def pullItem (acc : World × PullResults) (sa : RemoteActivity) :
    World × PullResults :=
  let w := acc.1
  let results := acc.2
  let localActivities := ActivityDB.getAll w.db
  match localActivities.find? (fun a => a.serverId = some sa.rid) with
  | some localActivity =>
    let results1 :=
      if sa.lastModified > localActivity.lastModified ∧
          localActivity.syncStatus = "pending" then
        { results with conflicts := results.conflicts + 1 }
      else results
    if sa.lastModified > localActivity.lastModified then
      ({ w with db := ActivityDB.update w.db localActivity.id
                  (serverPatch sa) w.clock,
                clock := w.clock + 1 },
       { results1 with updated := results1.updated + 1 })
    else (w, results1)
  | none =>
    ({ w with db := (ActivityDB.add w.db (serverInput sa) w.clock).1,
              clock := w.clock + 1 },
     { results with added := results.added + 1 })

/-- Model of SyncService.pullFromServer: fetches the server activities
(startDate set to the stored lastSync when one is recorded, no limit so
the backend default applies) and reconciles each into the local
store. -/
def pullFromServer (w : World) : World × PullResults :=
  let serverActivities := APIService.getActivities w.remote w.db.lastSync none
  serverActivities.foldl pullItem
    (w, { added := 0, updated := 0, conflicts := 0 })

/-- Model of SyncService.sync. The online flag models navigator.onLine
and the healthy flag the outcome of the health probe. Returns the busy
result while a cycle is in flight, the offline result without
connectivity; otherwise sets the isSyncing flag, aborts (caught) when
the backend is unreachable, else runs the push then the pull phase,
stores the current time as lastSync, and clears the isSyncing flag on
every exit path (the finally block). -/
def sync (online healthy : Bool) (w : World) : World × SyncResult :=
  if w.isSyncing then
    (w, { success := false, message := "Sync already in progress",
          push := none, pull := none })
  else if !online then
    (w, { success := false, message := "Device is offline",
          push := none, pull := none })
  else
    let w0 := { w with isSyncing := true }
    if !healthy then
      ({ w0 with isSyncing := false },
       { success := false, message := "Backend is not reachable",
         push := none, pull := none })
    else
      let pushed := processSyncQueue w0
      let pulled := pullFromServer pushed.1
      let w2 := pulled.1
      (({ w2 with db := { w2.db with lastSync := some w2.clock },
                  clock := w2.clock + 1, isSyncing := false }),
       { success := true, message := "Sync completed",
         push := some pushed.2, pull := some pulled.2 })

/-- Model of SyncService.forceSync: fails when offline; otherwise clears
the sync queue, fetches up to 1000 server activities, deletes every
local activity through ActivityDB.delete (which enqueues a delete entry
each time), re-adds every server activity through ActivityDB.add (which
forces syncStatus pending and enqueues a create entry each time) and
stores the current time as lastSync. It never consults or sets the
isSyncing flag. -/
def forceSync (online : Bool) (w : World) : Except String (World × Nat) :=
  if !online then .error "Cannot force sync while offline"
  else
    let db1 := SyncQueueDB.clear w.db
    let serverActivities := APIService.getActivities w.remote none (some 1000)
    let localActivities := ActivityDB.getAll db1
    let cleared := localActivities.foldl
      (fun (acc : DBState × Nat) a =>
        (ActivityDB.delete acc.1 a.id acc.2, acc.2 + 1))
      (db1, w.clock)
    let refilled := serverActivities.foldl
      (fun (acc : DBState × Nat) sa =>
        ((ActivityDB.add acc.1 (serverInput sa) acc.2).1, acc.2 + 1))
      cleared
    .ok ({ w with db := { refilled.1 with lastSync := some refilled.2 },
                  clock := refilled.2 + 1 },
         serverActivities.length)

end SyncService

/-!
Concrete scenario states used to settle the claims. Each scenario is
built with the operations of the model so that the provenance required
by the claim (for instance an update followed by a delete of the same
record) is part of the construction.
-/

/-- Scenario for C1 before the user mutations: one record, already
synced with server identifier 7, and an empty queue. -/
def c1Base : DBState :=
  { activities := [{ id := 1, serverId := some 7, mongoId := none,
                     syncStatus := "synced",
                     lastModified := 10, content := 100, startTime := 5 }],
    nextActivityId := 2, syncQueue := [], nextQueueId := 1, lastSync := none }

/-- Scenario for C1 after the user mutations: update of record 1 at
time 20, then delete of record 1 at time 21, so the queue holds an
update entry followed by a delete entry for the same record. -/
def c1Db : DBState :=
  ActivityDB.delete (ActivityDB.update c1Base 1 { content := some 101 } 20) 1 21

/-- Scenario world for C1: the remote store still holds the record with
identifier 7; the device is online and the backend reachable. -/
def c1World : World :=
  { db := c1Db,
    remote := { records := [{ rid := 7, content := 100, startTime := 5,
                              lastModified := 10 }], nextRemoteId := 8 },
    isSyncing := false, clock := 22 }

/-- Scenario world for C2: empty local store, one record on the remote
store with identifier 7. -/
def c2World : World :=
  { db := { activities := [], nextActivityId := 1, syncQueue := [],
            nextQueueId := 1, lastSync := none },
    remote := { records := [{ rid := 7, content := 100, startTime := 5,
                              lastModified := 10 }], nextRemoteId := 8 },
    isSyncing := false, clock := 20 }

/-- World after one sync cycle on the C2 scenario (the pull inserts the
server record locally). -/
def c2After1 : World := (SyncService.sync true true c2World).1

/-- World after a second sync cycle on the C2 scenario (the push sends
the create entry left behind by the pull back to the server). -/
def c2After2 : World := (SyncService.sync true true c2After1).1

/-- Scenario world for C3: local record 1 is pending with lastModified 1
and references remote identifier 7; the remote copy has lastModified 2
and different content. -/
def c3World : World :=
  { db := { activities := [{ id := 1, serverId := some 7,
                             mongoId := none,
                             syncStatus := "pending", lastModified := 1,
                             content := 50, startTime := 5 }],
            nextActivityId := 2, syncQueue := [], nextQueueId := 1,
            lastSync := none },
    remote := { records := [{ rid := 7, content := 60, startTime := 5,
                              lastModified := 2 }], nextRemoteId := 8 },
    isSyncing := false, clock := 20 }

/-- Scenario world for C4: one never-synced local record with a create
entry queued, and one record on the remote store. -/
def c4World : World :=
  { db := { activities := [{ id := 1, serverId := none,
                             mongoId := none,
                             syncStatus := "pending", lastModified := 3,
                             content := 1, startTime := 5 }],
            nextActivityId := 2,
            syncQueue := [{ id := 1, operation := "create", activityId := 1,
                            data := none, timestamp := 3, retryCount := 0,
                            lastAttempt := none }],
            nextQueueId := 2, lastSync := none },
    remote := { records := [{ rid := 7, content := 9, startTime := 6,
                              lastModified := 4 }], nextRemoteId := 8 },
    isSyncing := false, clock := 20 }

/-- Scenario world for C5: a single queue entry whose processing fails
deterministically in every cycle (an update referencing local id 99,
which no record carries), empty remote store. -/
def c5World : World :=
  { db := { activities := [], nextActivityId := 1,
            syncQueue := [{ id := 1, operation := "update", activityId := 99,
                            data := none, timestamp := 3, retryCount := 0,
                            lastAttempt := none }],
            nextQueueId := 2, lastSync := none },
    remote := { records := [], nextRemoteId := 1 },
    isSyncing := false, clock := 20 }

/-- Iterated sync cycles (online, backend reachable), keeping the
resulting world. -/
def syncIter : Nat → World → World
  | 0, w => w
  | n + 1, w => syncIter n (SyncService.sync true true w).1

/-- Scenario world for C6: lastSync is recorded as 100; the remote store
holds one record started at time 50 but modified at time 200, after the
last sync. -/
def c6World : World :=
  { db := { activities := [], nextActivityId := 1, syncQueue := [],
            nextQueueId := 1, lastSync := some 100 },
    remote := { records := [{ rid := 7, content := 1, startTime := 50,
                              lastModified := 200 }], nextRemoteId := 8 },
    isSyncing := false, clock := 300 }

/-- Empty local database (fresh Dexie store). -/
def emptyDb : DBState :=
  { activities := [], nextActivityId := 1, syncQueue := [],
    nextQueueId := 1, lastSync := none }

/-- World with no local or remote data and no sync in flight. -/
def idleWorld : World :=
  { db := emptyDb, remote := { records := [], nextRemoteId := 1 },
    isSyncing := false, clock := 0 }

/-- Scenario world for C7: a sync cycle is in flight (isSyncing is set)
and the queue holds one entry. -/
def c7World : World :=
  { db := { activities := [], nextActivityId := 1,
            syncQueue := [{ id := 1, operation := "create", activityId := 1,
                            data := none, timestamp := 3, retryCount := 0,
                            lastAttempt := none }],
            nextQueueId := 2, lastSync := none },
    remote := { records := [], nextRemoteId := 1 },
    isSyncing := true, clock := 20 }

/-- Invariant of claim C8: every local record whose syncStatus is synced
carries a remote identifier (a present serverId models a non-empty
Mongo identifier string). -/
def SyncedHasServerId (db : DBState) : Prop :=
  ∀ a ∈ db.activities, a.syncStatus = "synced" → a.serverId.isSome

/-- One step of the system: a user-facing record-store operation (add,
update, delete, or the internal markSynced), a full sync cycle under any
connectivity, or a successful forceSync. -/
inductive SyncStep : World → World → Prop where
  | userAdd (w : World) (inp : ActivityInput) (now : Nat) :
      SyncStep w { w with db := (ActivityDB.add w.db inp now).1 }
  | userUpdate (w : World) (id : Nat) (p : Patch) (now : Nat) :
      SyncStep w { w with db := ActivityDB.update w.db id p now }
  | userDelete (w : World) (id now : Nat) :
      SyncStep w { w with db := ActivityDB.delete w.db id now }
  | markSynced (w : World) (id sid : Nat) :
      SyncStep w { w with db := ActivityDB.markSynced w.db id sid }
  | syncCycle (w : World) (online healthy : Bool) :
      SyncStep w (SyncService.sync online healthy w).1
  | forceResync (w w2 : World) (online : Bool) (n : Nat)
      (h : SyncService.forceSync online w = .ok (w2, n)) :
      SyncStep w w2

/-- Sample database for the C10 witness: one record currently marked
synced. -/
def demoDb : DBState :=
  { activities := [{ id := 1, serverId := some 4, mongoId := none,
                     syncStatus := "synced",
                     lastModified := 3, content := 8, startTime := 2 }],
    nextActivityId := 2, syncQueue := [], nextQueueId := 1,
    lastSync := none }

/-- Sample input for witnesses: the caller tries to supply syncStatus
synced and a stale lastModified. -/
def demoInput : ActivityInput :=
  { serverId := none, mongoId := none, syncStatus := "synced",
    lastModified := 777, content := 1, startTime := 2 }

/-- Sample patch for the C10 witness: the caller tries to force
syncStatus synced and a stale lastModified through an update. -/
def demoPatch : Patch :=
  { syncStatus := some "synced", lastModified := some 777 }

/-- Removing a queue id leaves no entry with that id behind. -/
theorem any_id_filter_ne (l : List QueueEntry) (i : Nat) :
    ((l.filter (fun e => e.id ≠ i)).any (fun e => e.id = i)) = false := by
  induction l with
  | nil => rfl
  | cons e t ih =>
    by_cases h : e.id = i
    · simp [List.filter_cons, h, ih]
    · simp [List.filter_cons, h, ih]

/-- Incrementing the retry counter of some entry does not change which
ids occur in the queue. -/
theorem any_id_incrementRetry (l : List QueueEntry) (i now j : Nat) :
    ((l.map (fun e => if e.id = i then
        { e with retryCount := e.retryCount + 1, lastAttempt := some now }
      else e)).any (fun e => e.id = j)) =
      (l.any (fun e => e.id = j)) := by
  induction l with
  | nil => rfl
  | cons e t ih =>
    by_cases h : e.id = i <;> simp [h, ih]

/-- C1: the claim demands that after a successful push of update(A) then
delete(A) the record is absent from the remote store and the queue is
empty. The code violates it: ActivityDB.delete removed the local record
when the delete was enqueued, so during the push the update entry fails
with Activity not found locally and stays queued, and syncDelete finds
no local record, skips the server call entirely, and the record survives
on the remote store (the pull then even re-imports it, leaving a create
entry as well). This theorem evaluates the code on the C1 scenario:
after the cycle the remote store still holds identifier 7 and the queue
holds the failed update entry plus a create entry. -/
theorem C1_delete_after_update_leaves_remote_record :
    ((SyncService.sync true true c1World).1.remote.records.map
        (fun r => r.rid)) = [7] ∧
      ((SyncService.sync true true c1World).1.db.syncQueue.map
        (fun e => e.operation)) = ["update", "create"] ∧
      (SyncService.sync true true c1World).2.success = true := by
  refine ⟨rfl, rfl, rfl⟩

/-- C2: the claim demands that a pulled server record unknown locally is
inserted with syncStatus synced and no new queue entry. The code
violates it: pullFromServer passes syncStatus synced to ActivityDB.add,
but ActivityDB.add overrides the status to pending and enqueues a
create entry. The next sync re-posts the record — whose Dexie copy kept
the server _id through the spread — and the create endpoint rejects the
duplicate _id with a 500, so no second copy is created but the entry
fails, keeps retrying until the retry ceiling silently drops it, and
the record stays pending forever instead of synced. This theorem
evaluates the code on the C2 scenario: after one cycle the imported
record is pending with a create entry queued; the second cycle reports
a failed push, the remote store still holds the single record, and the
local copy is still pending. -/
theorem C2_pull_insert_is_pending_and_push_rejected :
    (c2After1.db.activities.map (fun a => (a.serverId, a.syncStatus)))
        = [(some 7, "pending")] ∧
      (c2After1.db.syncQueue.map (fun e => e.operation)) = ["create"] ∧
      ((SyncService.sync true true c2After1).2.push)
        = some { success := 0, failed := 1,
                 errors := [(1, "Request failed with status code 500")] } ∧
      (c2After2.remote.records.map (fun r => (r.rid, r.content)))
        = [(7, 100)] ∧
      (c2After2.db.activities.map (fun a => a.syncStatus)) = ["pending"] := by
  refine ⟨rfl, rfl, rfl, rfl, rfl⟩

/-- C3: the claim demands that the conflict case counts one conflict,
overwrites the local record with the remote content and leaves it with
syncStatus synced. The code counts the conflict and overwrites the
content, but the overwrite goes through ActivityDB.update, which forces
syncStatus back to pending (and enqueues an update entry), although
pullFromServer explicitly passed syncStatus synced. This theorem
evaluates the code on the C3 scenario. -/
theorem C3_conflict_overwrite_leaves_pending :
    (SyncService.pullFromServer c3World).2.conflicts = 1 ∧
      ((SyncService.pullFromServer c3World).1.db.activities.map
        (fun a => (a.content, a.syncStatus))) = [(60, "pending")] ∧
      ((SyncService.pullFromServer c3World).1.db.syncQueue.map
        (fun e => e.operation)) = ["update"] := by
  refine ⟨rfl, rfl, rfl⟩

/-- C4: the claim demands that after forceSync the local store holds
exactly the reported records, all synced, with an empty queue. The code
matches the records by remote identifier but ActivityDB.delete enqueues
a delete entry for every discarded local record and ActivityDB.add
enqueues a create entry and forces pending for every re-inserted server
record, so the queue ends non-empty and every record pending. This
theorem evaluates the code on the C4 scenario. -/
theorem C4_forceSync_leaves_pending_records_and_queue :
    ((SyncService.forceSync true c4World).toOption.map (fun x =>
        (x.1.db.activities.map (fun a => (a.serverId, a.syncStatus)),
         x.1.db.syncQueue.map (fun e => e.operation)))) =
      some ([(some 7, "pending")], ["delete", "create"]) := by
  rfl

/-- C6: the claim demands that the pull fetches exactly the records
modified since the recorded lastSync. The code passes lastSync as the
startDate filter, which the backend applies to startTime, not to
lastModified; a record started before the last sync but modified after
it is never fetched and never reconciled. This theorem evaluates the
code on the C6 scenario: the single remote record has lastModified 200,
later than the recorded lastSync 100, yet the list endpoint returns
nothing and a full sync leaves the local store empty. -/
theorem C6_pull_filter_uses_startTime_not_lastModified :
    c6World.db.lastSync = some 100 ∧
      (c6World.remote.records.map (fun r => (r.startTime, r.lastModified)))
        = [(50, 200)] ∧
      APIService.getActivities c6World.remote (some 100) none = [] ∧
      (SyncService.sync true true c6World).1.db.activities = [] := by
  refine ⟨rfl, rfl, rfl, rfl⟩

/-- C5 counterexample: the C5 scenario entry fails in every cycle
(first-cycle push result shown), yet after 5 consecutive failing cycles
it is still queued, now with retryCount 5 — refuting removal on the 5th
failure. Only the 6th failing cycle removes it. -/
theorem C5_entry_survives_fifth_failure :
    (SyncService.sync true true c5World).2.push =
        some { success := 0, failed := 1,
               errors := [(1, "Activity not found locally")] } ∧
      ((syncIter 5 c5World).db.syncQueue.map
        (fun e => (e.id, e.retryCount))) = [(1, 5)] ∧
      (syncIter 6 c5World).db.syncQueue = [] := by
  refine ⟨rfl, rfl, rfl⟩

/-- C5 (amended): when processing a queue entry fails, the entry stays
in the queue exactly when the retry counter stored at queue-load time
was still below 5; once the stored counter has reached 5 — that is, on
the 6th consecutive failure, because the code tests the stale
pre-increment value — the entry is removed. -/
theorem C5_failed_entry_kept_iff_retry_below_five (w : World)
    (r : PushResults) (item : QueueEntry)
    (h : ∃ msg, SyncService.runOperation w item = .error msg) :
    ((SyncService.processItem (w, r) item).1.db.syncQueue.any
        (fun e => e.id = item.id)) =
      (decide (item.retryCount < 5) &&
        w.db.syncQueue.any (fun e => e.id = item.id)) := by
  obtain ⟨msg, hmsg⟩ := h
  by_cases h5 : item.retryCount ≥ 5
  · have h5d : decide (item.retryCount < 5) = false := by
      simpa using Nat.not_lt.mpr h5
    simp only [SyncService.processItem, hmsg, if_pos h5, h5d,
      Bool.false_and]
    exact any_id_filter_ne _ _
  · have h5d : decide (item.retryCount < 5) = true := by
      simpa using Nat.lt_of_not_le h5
    simp only [SyncService.processItem, hmsg, if_neg h5, h5d,
      Bool.true_and]
    exact any_id_incrementRetry _ _ _ _


/-- Witness for the amended C5: the failing entry of the C5 scenario has
retryCount 0 and is kept queued by the cycle that fails it. -/
theorem C5_failed_entry_kept_witness :
    ((SyncService.processItem
        (c5World, { success := 0, failed := 0, errors := [] })
        { id := 1, operation := "update", activityId := 99, data := none,
          timestamp := 3, retryCount := 0, lastAttempt := none }).1.db.syncQueue.any
        (fun e => e.id = 1)) =
      (decide ((0 : Nat) < 5) &&
        c5World.db.syncQueue.any (fun e => e.id = 1)) :=
  C5_failed_entry_kept_iff_retry_below_five c5World
    { success := 0, failed := 0, errors := [] }
    { id := 1, operation := "update", activityId := 99, data := none,
      timestamp := 3, retryCount := 0, lastAttempt := none }
    ⟨"Activity not found locally", rfl⟩

/-- C7 counterexample: forceSync never consults the isSyncing guard. In
the C7 scenario a sync cycle is marked in flight and the queue is
non-empty, yet forceSync proceeds and performs work (it clears the
queue) instead of observing busy and doing nothing. -/
theorem C7_forceSync_runs_during_active_sync :
    c7World.isSyncing = true ∧
      c7World.db.syncQueue ≠ [] ∧
      ((SyncService.forceSync true c7World).toOption.map
        (fun x => x.1.db.syncQueue)) = some [] := by
  refine ⟨rfl, by decide, rfl⟩

/-- C7 (amended): the mutual-exclusion guard covers sync() only. While a
cycle is in flight, a second sync() call returns the busy result and the
state is completely untouched; when no cycle is in flight, sync() leaves
the guard released on every exit path (busy, offline, unreachable
backend, or full cycle). forceSync() does not participate in the guard
(see the counterexample). -/
theorem C7_sync_guard_busy_noop_and_released (online healthy : Bool)
    (w : World) :
    (w.isSyncing = true →
        SyncService.sync online healthy w =
          (w, { success := false, message := "Sync already in progress",
                push := none, pull := none })) ∧
      (w.isSyncing = false →
        (SyncService.sync online healthy w).1.isSyncing = false) := by
  constructor
  · intro h
    simp [SyncService.sync, h]
  · intro h
    cases online <;> cases healthy <;> simp [SyncService.sync, h]

/-- Witness for the amended C7: a busy world is returned unchanged with
the busy message, and an idle world ends with the guard released. -/
theorem C7_sync_guard_witness :
    (SyncService.sync true true c7World =
        (c7World, { success := false, message := "Sync already in progress",
                    push := none, pull := none })) ∧
      (SyncService.sync true true idleWorld).1.isSyncing = false :=
  ⟨(C7_sync_guard_busy_noop_and_released true true c7World).1 rfl,
   (C7_sync_guard_busy_noop_and_released true true idleWorld).2 rfl⟩

/-- C9: sync is embedded as a total function into a structured result
(the JS try/catch makes every call resolve to a result object), and on
each abort path — a cycle already in flight, the device offline, or the
health probe failing — the local database (records, queue and settings)
and the remote store are left untouched and the result is marked
unsuccessful. -/
theorem C9_sync_aborts_leave_state_untouched (online healthy : Bool)
    (w : World)
    (h : w.isSyncing = true ∨ online = false ∨ healthy = false) :
    (SyncService.sync online healthy w).1.db = w.db ∧
      (SyncService.sync online healthy w).1.remote = w.remote ∧
      (SyncService.sync online healthy w).2.success = false := by
  rcases h with h | h | h
  · simp [SyncService.sync, h]
  · cases hs : w.isSyncing <;> simp [SyncService.sync, hs, h]
  · cases hs : w.isSyncing <;> cases online <;>
      simp [SyncService.sync, hs, h]

/-- Witness for C9: with the backend unreachable, the C2 scenario world
keeps its database and remote store and the result is unsuccessful. -/
theorem C9_sync_aborts_witness :
    (SyncService.sync true false idleWorld).1.db = idleWorld.db ∧
      (SyncService.sync true false idleWorld).1.remote = idleWorld.remote ∧
      (SyncService.sync true false idleWorld).2.success = false :=
  C9_sync_aborts_leave_state_untouched true false idleWorld
    (Or.inr (Or.inr rfl))

/-- Transport of the C8 invariant along equality of the activities
table (covers queue-only and settings-only operations). -/
theorem inv_of_activities_eq {st st2 : DBState}
    (h : st2.activities = st.activities) (hi : SyncedHasServerId st) :
    SyncedHasServerId st2 := by
  intro a ha hs
  exact hi a (h ▸ ha) hs

/-- ActivityDB.add preserves the C8 invariant: the stored record is
forced to pending. -/
theorem inv_add (st : DBState) (inp : ActivityInput) (now : Nat)
    (hi : SyncedHasServerId st) :
    SyncedHasServerId (ActivityDB.add st inp now).1 := by
  intro a ha hs
  rcases List.mem_append.mp ha with h | h
  · exact hi a h hs
  · cases List.mem_singleton.mp h
    simp at hs

/-- ActivityDB.update preserves the C8 invariant: the patched record is
forced to pending, other records are unchanged. -/
theorem inv_update (st : DBState) (id : Nat) (p : Patch) (now : Nat)
    (hi : SyncedHasServerId st) :
    SyncedHasServerId (ActivityDB.update st id p now) := by
  intro a ha hs
  rcases List.mem_map.mp ha with ⟨b, hb, rfl⟩
  by_cases hid : b.id = id
  · simp only [if_pos hid] at hs
    simp [applyPatch] at hs
  · simp only [if_neg hid] at hs ⊢
    exact hi b hb hs

/-- ActivityDB.delete preserves the C8 invariant: records are only
removed. -/
theorem inv_delete (st : DBState) (id now : Nat)
    (hi : SyncedHasServerId st) :
    SyncedHasServerId (ActivityDB.delete st id now) := by
  intro a ha hs
  exact hi a (List.mem_filter.mp ha).1 hs

/-- ActivityDB.markSynced preserves the C8 invariant: the record marked
synced receives a server identifier in the same write. -/
theorem inv_markSynced (st : DBState) (id sid : Nat)
    (hi : SyncedHasServerId st) :
    SyncedHasServerId (ActivityDB.markSynced st id sid) := by
  intro a ha hs
  rcases List.mem_map.mp ha with ⟨b, hb, rfl⟩
  by_cases hid : b.id = id
  · simp only [if_pos hid]
    rfl
  · simp only [if_neg hid] at hs ⊢
    exact hi b hb hs

/-- A successful syncCreate preserves the C8 invariant: it marks the
record synced together with the server identifier assigned by the create
endpoint. -/
theorem inv_syncCreate {w w2 : World} {item : QueueEntry}
    (h : SyncService.syncCreate w item = .ok w2)
    (hi : SyncedHasServerId w.db) : SyncedHasServerId w2.db := by
  unfold SyncService.syncCreate at h
  split at h
  · cases h
  · split at h
    · cases h
    · injection h with h
      subst h
      exact inv_markSynced _ _ _ hi

/-- A successful syncUpdate preserves the C8 invariant: it re-marks the
record synced with its existing server identifier. -/
theorem inv_syncUpdate {w w2 : World} {item : QueueEntry}
    (h : SyncService.syncUpdate w item = .ok w2)
    (hi : SyncedHasServerId w.db) : SyncedHasServerId w2.db := by
  unfold SyncService.syncUpdate at h
  split at h
  · cases h
  · split at h
    · cases h
    · split at h
      · cases h
      · injection h with h
        subst h
        exact inv_markSynced _ _ _ hi

/-- A successful syncDelete preserves the C8 invariant: it never touches
the local activities table. -/
theorem inv_syncDelete {w w2 : World} {item : QueueEntry}
    (h : SyncService.syncDelete w item = .ok w2)
    (hi : SyncedHasServerId w.db) : SyncedHasServerId w2.db := by
  unfold SyncService.syncDelete at h
  split at h
  · split at h
    · split at h
      · cases h
      · injection h with h
        subst h
        exact hi
    · injection h with h
      subst h
      exact hi
  · injection h with h
    subst h
    exact hi

/-- A successful queue operation preserves the C8 invariant. -/
theorem inv_runOperation {w w2 : World} {item : QueueEntry}
    (h : SyncService.runOperation w item = .ok w2)
    (hi : SyncedHasServerId w.db) : SyncedHasServerId w2.db := by
  unfold SyncService.runOperation at h
  split at h
  · exact inv_syncCreate h hi
  · exact inv_syncUpdate h hi
  · exact inv_syncDelete h hi
  · injection h with h
    subst h
    exact hi

/-- One iteration of the push loop preserves the C8 invariant. -/
theorem inv_processItem (acc : World × PushResults) (item : QueueEntry)
    (hi : SyncedHasServerId acc.1.db) :
    SyncedHasServerId (SyncService.processItem acc item).1.db := by
  cases hop : SyncService.runOperation acc.1 item with
  | ok w1 =>
    have heq : (SyncService.processItem acc item).1.db =
        SyncQueueDB.remove w1.db item.id := by
      simp only [SyncService.processItem]
      rw [hop]
    rw [heq]
    exact inv_of_activities_eq rfl (inv_runOperation hop hi)
  | error msg =>
    have heq : (SyncService.processItem acc item).1.db =
        (if item.retryCount ≥ 5 then
          SyncQueueDB.remove
            (SyncQueueDB.incrementRetry acc.1.db item.id acc.1.clock)
            item.id
        else SyncQueueDB.incrementRetry acc.1.db item.id acc.1.clock) := by
      simp only [SyncService.processItem]
      rw [hop]
    rw [heq]
    by_cases h5 : item.retryCount ≥ 5
    · rw [if_pos h5]
      exact inv_of_activities_eq rfl hi
    · rw [if_neg h5]
      exact inv_of_activities_eq rfl hi

/-- A left fold preserves any property preserved by each step. -/
theorem inv_foldl {α σ : Type} {P : σ → Prop} {f : σ → α → σ}
    (hf : ∀ s x, P s → P (f s x)) :
    ∀ (l : List α) (s : σ), P s → P (l.foldl f s) := by
  intro l
  induction l with
  | nil => intro s h; exact h
  | cons x t ih => intro s h; exact ih (f s x) (hf s x h)

/-- The push phase preserves the C8 invariant. -/
theorem inv_processSyncQueue (w : World) (hi : SyncedHasServerId w.db) :
    SyncedHasServerId (SyncService.processSyncQueue w).1.db := by
  unfold SyncService.processSyncQueue
  exact inv_foldl (P := fun acc => SyncedHasServerId acc.1.db)
    (fun acc item h => inv_processItem acc item h)
    (SyncQueueDB.getAll w.db)
    (w, { success := 0, failed := 0, errors := [] }) hi

/-- One iteration of the pull loop preserves the C8 invariant: both the
overwrite path and the insert path go through operations that force
pending. -/
theorem inv_pullItem (acc : World × PullResults) (sa : RemoteActivity)
    (hi : SyncedHasServerId acc.1.db) :
    SyncedHasServerId (SyncService.pullItem acc sa).1.db := by
  cases hf : (ActivityDB.getAll acc.1.db).find?
      (fun a => a.serverId = some sa.rid) with
  | none =>
    have heq : (SyncService.pullItem acc sa).1.db =
        (ActivityDB.add acc.1.db (SyncService.serverInput sa)
          acc.1.clock).1 := by
      simp only [SyncService.pullItem]
      rw [hf]
    rw [heq]
    exact inv_add _ _ _ hi
  | some la =>
    by_cases h2 : sa.lastModified > la.lastModified
    · have heq : (SyncService.pullItem acc sa).1.db =
          ActivityDB.update acc.1.db la.id (SyncService.serverPatch sa)
            acc.1.clock := by
        simp [SyncService.pullItem, hf, h2]
      rw [heq]
      exact inv_update _ _ _ _ hi
    · have heq : (SyncService.pullItem acc sa).1.db = acc.1.db := by
        simp [SyncService.pullItem, hf, h2]
      rw [heq]
      exact hi

/-- The pull phase preserves the C8 invariant. -/
theorem inv_pullFromServer (w : World) (hi : SyncedHasServerId w.db) :
    SyncedHasServerId (SyncService.pullFromServer w).1.db := by
  unfold SyncService.pullFromServer
  exact inv_foldl (P := fun acc => SyncedHasServerId acc.1.db)
    (fun acc sa h => inv_pullItem acc sa h)
    (APIService.getActivities w.remote w.db.lastSync none)
    (w, { added := 0, updated := 0, conflicts := 0 }) hi

/-- A whole sync cycle preserves the C8 invariant. -/
theorem inv_sync (online healthy : Bool) (w : World)
    (hi : SyncedHasServerId w.db) :
    SyncedHasServerId (SyncService.sync online healthy w).1.db := by
  unfold SyncService.sync
  by_cases hs : w.isSyncing = true
  · rw [if_pos hs]
    exact hi
  · rw [if_neg hs]
    by_cases ho : (!online) = true
    · rw [if_pos ho]
      exact hi
    · rw [if_neg ho]
      by_cases hh : (!healthy) = true
      · rw [if_pos hh]
        exact hi
      · rw [if_neg hh]
        have h1 : SyncedHasServerId
            (SyncService.processSyncQueue { w with isSyncing := true }).1.db :=
          inv_processSyncQueue _ hi
        have h2 := inv_pullFromServer _ h1
        exact inv_of_activities_eq rfl h2

/-- A successful forceSync preserves the C8 invariant: every re-inserted
record is stored pending. -/
theorem inv_forceSync {w w2 : World} {online : Bool} {n : Nat}
    (h : SyncService.forceSync online w = .ok (w2, n))
    (hi : SyncedHasServerId w.db) : SyncedHasServerId w2.db := by
  unfold SyncService.forceSync at h
  by_cases ho : (!online) = true
  · rw [if_pos ho] at h
    cases h
  · rw [if_neg ho] at h
    injection h with h
    injection h with h1 h2
    subst h1
    have hc : SyncedHasServerId (SyncQueueDB.clear w.db) :=
      inv_of_activities_eq rfl hi
    have hd := inv_foldl
      (P := fun (acc : DBState × Nat) => SyncedHasServerId acc.1)
      (f := fun acc a => (ActivityDB.delete acc.1 a.id acc.2, acc.2 + 1))
      (fun acc a hP => inv_delete acc.1 a.id acc.2 hP)
      (ActivityDB.getAll (SyncQueueDB.clear w.db))
      (SyncQueueDB.clear w.db, w.clock) hc
    have ha := inv_foldl
      (P := fun (acc : DBState × Nat) => SyncedHasServerId acc.1)
      (f := fun acc sa =>
        ((ActivityDB.add acc.1 (SyncService.serverInput sa) acc.2).1,
         acc.2 + 1))
      (fun acc sa hP => inv_add acc.1 (SyncService.serverInput sa) acc.2 hP)
      (APIService.getActivities w.remote none (some 1000)) _ hd
    exact inv_of_activities_eq rfl ha

/-- C8: in every state reachable from a state satisfying the invariant
through the record-store operations (add, update, delete, markSynced),
sync cycles under any connectivity, and successful forceSync runs, a
local record with syncStatus synced carries a remote identifier. The
only operation that produces the synced status is markSynced, and it
stores a server identifier in the same write; every other path stores
records as pending. -/
theorem C8_synced_records_have_remote_ids (w w2 : World)
    (hw : SyncedHasServerId w.db)
    (h : Relation.ReflTransGen SyncStep w w2) :
    SyncedHasServerId w2.db := by
  induction h with
  | refl => exact hw
  | tail _ hstep ih =>
    cases hstep with
    | userAdd inp now => exact inv_add _ _ _ ih
    | userUpdate id p now => exact inv_update _ _ _ _ ih
    | userDelete id now => exact inv_delete _ _ _ ih
    | markSynced id sid => exact inv_markSynced _ _ _ ih
    | syncCycle online healthy => exact inv_sync _ _ _ ih
    | forceResync w4 online n hfs => exact inv_forceSync hfs ih

/-- Witness for C8: the invariant holds after one user add step from the
empty world. -/
theorem C8_synced_records_witness :
    SyncedHasServerId
      ({ idleWorld with
         db := (ActivityDB.add idleWorld.db demoInput 5).1 }).db :=
  C8_synced_records_have_remote_ids idleWorld
    { idleWorld with db := (ActivityDB.add idleWorld.db demoInput 5).1 }
    (fun a ha _ => absurd ha (List.not_mem_nil a))
    (Relation.ReflTransGen.single (SyncStep.userAdd idleWorld demoInput 5))

/-- C10: ActivityDB.add stores its record with syncStatus pending and
lastModified equal to the current time and appends exactly one create
entry to the queue; ActivityDB.update leaves every record with the
updated id pending with the fresh stamp and appends exactly one update
entry — for every caller-supplied input and patch, including ones that
try to supply syncStatus or lastModified themselves. -/
theorem C10_add_update_force_pending (st : DBState) (inp : ActivityInput)
    (p : Patch) (id now : Nat) :
    ((ActivityDB.add st inp now).1.activities.map (fun a => a.syncStatus))
        = (st.activities.map (fun a => a.syncStatus)) ++ ["pending"] ∧
      ((ActivityDB.add st inp now).1.activities.map (fun a => a.lastModified))
        = (st.activities.map (fun a => a.lastModified)) ++ [now] ∧
      ((ActivityDB.add st inp now).1.syncQueue.map (fun e => e.operation))
        = (st.syncQueue.map (fun e => e.operation)) ++ ["create"] ∧
      ((ActivityDB.update st id p now).syncQueue.map (fun e => e.operation))
        = (st.syncQueue.map (fun e => e.operation)) ++ ["update"] ∧
      ∀ a ∈ (ActivityDB.update st id p now).activities, a.id = id →
        a.syncStatus = "pending" ∧ a.lastModified = now := by
  refine ⟨?_, ?_, ?_, ?_, ?_⟩
  · simp [ActivityDB.add]
  · simp [ActivityDB.add]
  · simp [ActivityDB.add]
  · simp [ActivityDB.update]
  · intro a ha hid
    rcases List.mem_map.mp ha with ⟨b, hb, rfl⟩
    by_cases h : b.id = id
    · simp only [if_pos h]
      exact ⟨rfl, rfl⟩
    · simp only [if_neg h] at hid
      exact absurd hid h

/-- Witness for C10: the update of the demo database with a patch that
tries to force syncStatus synced still leaves the patched record
pending with the fresh stamp. -/
theorem C10_force_pending_witness :
    ∀ a ∈ (ActivityDB.update demoDb 1 demoPatch 9).activities, a.id = 1 →
      a.syncStatus = "pending" ∧ a.lastModified = 9 :=
  (C10_add_update_force_pending demoDb demoInput demoPatch 1 9).2.2.2.2

end TrailSync
